import Mathlib

/-!
Verification of the mediacanon reconciliation engine against its design
specification.  The Go sources (`backend/cmd/sync/main.go` and the web-server
monolith) are shallowly embedded below: SQL `UPDATE` statements become pure
functions on row records, per-line scan loops become state-passing functions,
and external HTTP outcomes become explicit oracle parameters.
-/

/-- SQL `NULLIF(s, '')`: the empty string becomes NULL. -/
def sqlNullif (s : String) : Option String :=
  if s = "" then none else some s

/-- SQL `COALESCE(a, b)`: the first non-NULL argument. -/
def sqlCoalesce {α : Type} (a b : Option α) : Option α :=
  match a with
  | some v => some v
  | none => b

theorem sqlCoalesce_nullif (s : String) (o : Option String) :
    sqlCoalesce (sqlNullif s) o = if s = "" then o else some s := by
  by_cases h : s = "" <;> simp [sqlCoalesce, sqlNullif, h]

/-- The columns of a `titles` row touched by the TMDB merge statements. -/
structure TitleRow where
  tmdb_id : Option Int
  image_url : Option String
  original_language : Option String
  release_date : Option String
  tmdb_popularity : Option Rat
  origin_country : Option String
  runtime_minutes : Option Int
  needs_backfill_tmdb : Bool
deriving Repr, DecidableEq

/-- The `UPDATE titles SET ...` issued by `tmdbBackfillBatch` on a successful
detail fetch (`cmd/sync/main.go` lines 1584-1595), as a pure function of the
current row and the values derived from the decoded detail response. -/
def tmdbBackfillBatchUpdate (row : TitleRow) (tmdbID : Int)
    (imageURL origLang releaseDate : String) (popularity : Rat)
    (originCountry : String) (runtime : Int) : TitleRow :=
  { tmdb_id := some tmdbID
    image_url := if imageURL = "" then row.image_url
      else sqlCoalesce (sqlNullif imageURL) row.image_url
    original_language := sqlCoalesce (sqlNullif origLang) row.original_language
    release_date := if releaseDate = "" then row.release_date else some releaseDate
    tmdb_popularity := if popularity = 0 then row.tmdb_popularity else some popularity
    origin_country := sqlCoalesce (sqlNullif originCountry) row.origin_country
    runtime_minutes := if runtime = 0 then row.runtime_minutes else some runtime
    needs_backfill_tmdb := false }

/-- The `UPDATE titles SET ...` issued by `maybeTMDBBackfill` on a successful
detail fetch (web server, lines 778-789).  Its SQL text is identical to the
batch scheduler's statement. -/
def maybeTMDBBackfillUpdate (row : TitleRow) (tmdbID : Int)
    (imageURL origLang releaseDate : String) (popularity : Rat)
    (originCountry : String) (runtime : Int) : TitleRow :=
  { tmdb_id := some tmdbID
    image_url := if imageURL = "" then row.image_url
      else sqlCoalesce (sqlNullif imageURL) row.image_url
    original_language := sqlCoalesce (sqlNullif origLang) row.original_language
    release_date := if releaseDate = "" then row.release_date else some releaseDate
    tmdb_popularity := if popularity = 0 then row.tmdb_popularity else some popularity
    origin_country := sqlCoalesce (sqlNullif originCountry) row.origin_country
    runtime_minutes := if runtime = 0 then row.runtime_minutes else some runtime
    needs_backfill_tmdb := false }

/-- A concrete row in which every mergeable field already holds a real
(non-null, non-empty, non-zero) value. -/
def c1Row : TitleRow :=
  { tmdb_id := some 603
    image_url := some "https://image.tmdb.org/t/p/w500/old.jpg"
    original_language := some "en"
    release_date := some "1999-03-31"
    tmdb_popularity := some 50
    origin_country := some "US"
    runtime_minutes := some 136
    needs_backfill_tmdb := true }

/-- C1 counterexample: the backfill merge is not fill-if-empty.  On a row whose
`original_language` and `image_url` already hold real values, a successful
fetch returning non-empty values overwrites both of them (in the batch
scheduler's statement and in the lazy path's identical statement), contradicting
the claim that every field already holding a real value keeps its prior value. -/
theorem c1_overwrite_counterexample :
    c1Row.original_language = some "en" ∧
    c1Row.image_url = some "https://image.tmdb.org/t/p/w500/old.jpg" ∧
    (tmdbBackfillBatchUpdate c1Row 603 "https://image.tmdb.org/t/p/w500/new.jpg"
        "fr" "1999-04-07" 61 "FR" 130).original_language = some "fr" ∧
    (tmdbBackfillBatchUpdate c1Row 603 "https://image.tmdb.org/t/p/w500/new.jpg"
        "fr" "1999-04-07" 61 "FR" 130).image_url
      = some "https://image.tmdb.org/t/p/w500/new.jpg" ∧
    (maybeTMDBBackfillUpdate c1Row 603 "https://image.tmdb.org/t/p/w500/new.jpg"
        "fr" "1999-04-07" 61 "FR" 130).original_language = some "fr" := by
  refine ⟨rfl, rfl, rfl, rfl, rfl⟩

/-- C1 (amended): both backfill merge statements agree, and their policy is
keep-prior-only-when-the-fetched-value-is-empty-or-zero: a field keeps its
prior value exactly when the corresponding fetched value is empty (zero for the
numeric fields); a non-empty/non-zero fetched value overwrites the field even
when it already holds a real value; `tmdb_id` is assigned unconditionally and
the enrichment flag is cleared. -/
theorem c1_merge_policy (row : TitleRow) (tmdbID : Int)
    (imageURL origLang releaseDate : String) (popularity : Rat)
    (originCountry : String) (runtime : Int) :
    tmdbBackfillBatchUpdate row tmdbID imageURL origLang releaseDate popularity
        originCountry runtime
      = maybeTMDBBackfillUpdate row tmdbID imageURL origLang releaseDate popularity
        originCountry runtime ∧
    (tmdbBackfillBatchUpdate row tmdbID imageURL origLang releaseDate popularity
        originCountry runtime).tmdb_id = some tmdbID ∧
    (tmdbBackfillBatchUpdate row tmdbID imageURL origLang releaseDate popularity
        originCountry runtime).image_url
      = (if imageURL = "" then row.image_url else some imageURL) ∧
    (tmdbBackfillBatchUpdate row tmdbID imageURL origLang releaseDate popularity
        originCountry runtime).original_language
      = (if origLang = "" then row.original_language else some origLang) ∧
    (tmdbBackfillBatchUpdate row tmdbID imageURL origLang releaseDate popularity
        originCountry runtime).release_date
      = (if releaseDate = "" then row.release_date else some releaseDate) ∧
    (tmdbBackfillBatchUpdate row tmdbID imageURL origLang releaseDate popularity
        originCountry runtime).tmdb_popularity
      = (if popularity = 0 then row.tmdb_popularity else some popularity) ∧
    (tmdbBackfillBatchUpdate row tmdbID imageURL origLang releaseDate popularity
        originCountry runtime).origin_country
      = (if originCountry = "" then row.origin_country else some originCountry) ∧
    (tmdbBackfillBatchUpdate row tmdbID imageURL origLang releaseDate popularity
        originCountry runtime).runtime_minutes
      = (if runtime = 0 then row.runtime_minutes else some runtime) ∧
    (tmdbBackfillBatchUpdate row tmdbID imageURL origLang releaseDate popularity
        originCountry runtime).needs_backfill_tmdb = false := by
  refine ⟨rfl, rfl, ?_, ?_, rfl, rfl, ?_, rfl, rfl⟩ <;>
    simp only [tmdbBackfillBatchUpdate, sqlCoalesce_nullif] <;>
    split <;> simp_all [sqlCoalesce_nullif]

/-- The outcome of one import stage: `ok` when the stage completes (carrying
the number of store writes it issued), `fail` when a store error occurred
(carrying the writes issued before the failure). -/
inductive StageOutcome where
  | ok (writes : Nat)
  | fail (writes : Nat)
deriving Repr, DecidableEq

def StageOutcome.isOk : StageOutcome → Bool
  | .ok _ => true
  | .fail _ => false

def StageOutcome.writes : StageOutcome → Nat
  | .ok w => w
  | .fail w => w

/-- `getSyncState` (`cmd/sync/main.go` lines 254-261): read a key from the
`sync_state` table, returning the empty string when the row is missing. -/
def getSyncState (st : List (String × String)) (key : String) : String :=
  (st.lookup key).getD ""

/-- `setSyncState` (`cmd/sync/main.go` lines 263-269): `INSERT ... ON CONFLICT
(key) DO UPDATE SET value = $2` — an upsert on the `sync_state` table. -/
def setSyncState (st : List (String × String)) (key value : String) :
    List (String × String) :=
  if (st.lookup key).isSome then
    st.map (fun kv => if kv.1 = key then (key, value) else kv)
  else
    st ++ [(key, value)]

/-- Bytewise lexicographic order on character lists, mirroring Go's `<=` on
strings (codepoints coincide with bytes on the ASCII paths used here). -/
def charListLe : List Char → List Char → Bool
  | [], _ => true
  | _ :: _, [] => false
  | a :: as, b :: bs =>
    if a.toNat < b.toNat then true
    else if b.toNat < a.toNat then false
    else charListLe as bs

def strLe (a b : String) : Bool := charListLe a.data b.data

/-- Insertion of one path into a sorted list of paths (`sort.Strings`). -/
def insertSorted (x : String) : List String → List String
  | [] => [x]
  | y :: ys => if strLe x y then x :: y :: ys else y :: insertSorted x ys

/-- `sort.Strings`: paths are sorted before hashing so the fingerprint is
independent of argument order. -/
def sortStrings : List String → List String
  | [] => []
  | x :: xs => insertSorted x (sortStrings xs)

/-- `hashFiles` (`cmd/sync/main.go` lines 234-252): one digest over the
concatenated contents of all files, visited in sorted-path order.  The SHA-256
function itself is abstracted as the `digest` parameter; `files` pairs each
path with its contents. -/
def hashFiles (digest : String → String) (files : List (String × String)) :
    String :=
  digest (String.join ((sortStrings (files.map (fun f => f.1))).map
    (fun p => (files.lookup p).getD "")))

/-- The observable outcome of one run of the IMDb import section of `main`. -/
structure SyncRun where
  stagesRun : List String
  datasetWrites : Nat
  aborted : Bool
  syncState : List (String × String)
deriving Repr, DecidableEq

/-- The IMDb import section of `main` (`cmd/sync/main.go` lines 177-219):
compare the computed fingerprint with the persisted checkpoint, skip all four
stages when unchanged and the force flag is absent, otherwise run titles,
genres, episodes and ratings in order, aborting (`log.Fatal`) on the first
stage failure, and persist the new fingerprint only after all four stages
succeed. -/
def runImdbImport (st0 : List (String × String)) (forceImdb : Bool)
    (currentHash : String) (titles genres episodes ratings : StageOutcome) :
    SyncRun :=
  let previousHash := getSyncState st0 "imdb_files_hash"
  let imdbChanged := forceImdb || currentHash != previousHash
  if imdbChanged then
    match titles with
    | .fail w => ⟨["titles"], w, true, st0⟩
    | .ok w1 =>
      match genres with
      | .fail w => ⟨["titles", "genres"], w1 + w, true, st0⟩
      | .ok w2 =>
        match episodes with
        | .fail w => ⟨["titles", "genres", "episodes"], w1 + w2 + w, true, st0⟩
        | .ok w3 =>
          match ratings with
          | .fail w =>
            ⟨["titles", "genres", "episodes", "ratings"], w1 + w2 + w3 + w,
              true, st0⟩
          | .ok w4 =>
            ⟨["titles", "genres", "episodes", "ratings"], w1 + w2 + w3 + w4,
              false, setSyncState st0 "imdb_files_hash" currentHash⟩
  else
    ⟨[], 0, false, st0⟩

/-- C2: when the combined fingerprint of the three dataset files equals the
persisted checkpoint value and the force flag is not set, none of the four sync
stages (titles, genres, episodes, ratings) executes and zero dataset-derived
writes are issued against the store. -/
theorem c2_unchanged_hash_skips_import (st0 : List (String × String))
    (digest : String → String) (files : List (String × String))
    (titles genres episodes ratings : StageOutcome)
    (h : hashFiles digest files = getSyncState st0 "imdb_files_hash") :
    (runImdbImport st0 false (hashFiles digest files)
        titles genres episodes ratings).stagesRun = [] ∧
    (runImdbImport st0 false (hashFiles digest files)
        titles genres episodes ratings).datasetWrites = 0 := by
  simp [runImdbImport, h]

/-- C2 witness: a concrete store whose checkpoint matches the computed
fingerprint of three concrete files; no stage runs. -/
theorem c2_unchanged_hash_skips_import_witness :
    (runImdbImport [("imdb_files_hash", "digest-of:ABC")]
        false
        (hashFiles (fun s => "digest-of:" ++ s)
          [("b.tsv.gz", "B"), ("a.tsv.gz", "A"), ("c.tsv.gz", "C")])
        (.ok 3) (.ok 4) (.fail 5) (.ok 6)).stagesRun = [] ∧
    (runImdbImport [("imdb_files_hash", "digest-of:ABC")]
        false
        (hashFiles (fun s => "digest-of:" ++ s)
          [("b.tsv.gz", "B"), ("a.tsv.gz", "A"), ("c.tsv.gz", "C")])
        (.ok 3) (.ok 4) (.fail 5) (.ok 6)).datasetWrites = 0 :=
  c2_unchanged_hash_skips_import [("imdb_files_hash", "digest-of:ABC")]
    (fun s => "digest-of:" ++ s)
    [("b.tsv.gz", "B"), ("a.tsv.gz", "A"), ("c.tsv.gz", "C")]
    (.ok 3) (.ok 4) (.fail 5) (.ok 6) rfl

/-- C6: the `sync_state` checkpoint holding the dataset fingerprint is
created/updated exactly when the import ran and all four stages completed
successfully; on any stage failure the run aborts and the previously persisted
fingerprint is left unchanged. -/
theorem c6_checkpoint_only_after_full_success (st0 : List (String × String))
    (forceImdb : Bool) (currentHash : String)
    (titles genres episodes ratings : StageOutcome) :
    (runImdbImport st0 forceImdb currentHash
        titles genres episodes ratings).syncState
      = (if (forceImdb || currentHash != getSyncState st0 "imdb_files_hash")
            && titles.isOk && genres.isOk && episodes.isOk && ratings.isOk
         then setSyncState st0 "imdb_files_hash" currentHash
         else st0) ∧
    (runImdbImport st0 forceImdb currentHash
        titles genres episodes ratings).aborted
      = ((forceImdb || currentHash != getSyncState st0 "imdb_files_hash")
          && !(titles.isOk && genres.isOk && episodes.isOk && ratings.isOk)) := by
  cases titles <;> cases genres <;> cases episodes <;> cases ratings <;>
    simp [runImdbImport, StageOutcome.isOk] <;>
    split <;> simp_all

/-- One row of the backfill page query `SELECT id, type, imdb_id, tmdb_id FROM
titles WHERE needs_backfill_tmdb = true` (`cmd/sync/main.go` lines 1448-1470). -/
structure BackfillRow where
  id : Int
  titleType : String
  imdbID : Option String
  tmdbID : Option Int
deriving Repr, DecidableEq

/-- The decoded TMDB detail response body (zero values stand for a body that
failed to decode, matching the ignored decode error at line 1564). -/
structure TMDBDetail where
  posterPath : String
  originalLanguage : String
  releaseDate : String
  firstAirDate : String
  popularity : Rat
  originCountry : List String
  productionCountries : List String
  runtime : Int
deriving Repr, DecidableEq

/-- Outcome of the Find-API lookup: network error, or an HTTP response whose
decoded body lists TV and movie candidate ids (empty on decode failure). -/
inductive FindOutcome where
  | netError
  | response (status : Nat) (tvIDs movieIDs : List Int)
deriving Repr, DecidableEq

/-- Outcome of the Details-API call: network error, or an HTTP response with
its decoded body (a zero-valued body models a decode failure). -/
inductive DetailOutcome where
  | netError
  | response (status : Nat) (detail : TMDBDetail)
deriving Repr, DecidableEq

/-- TMDB id resolution in `tmdbBackfillBatch` (lines 1486-1515): use the
stored id when non-zero, otherwise consult the Find API, preferring the result
list matching the row's kind and falling back to whichever list is non-empty. -/
def resolveTmdbID (r : BackfillRow) (find : FindOutcome) : Int :=
  let t0 : Int := r.tmdbID.getD 0
  if t0 ≠ 0 then t0
  else
    match find with
    | .netError => 0
    | .response status tvIDs movieIDs =>
      if status = 200 then
        if r.titleType = "show" ∧ tvIDs ≠ [] then tvIDs.headD 0
        else if r.titleType = "movie" ∧ movieIDs ≠ [] then movieIDs.headD 0
        else if movieIDs ≠ [] then movieIDs.headD 0
        else if tvIDs ≠ [] then tvIDs.headD 0
        else 0
      else 0

/-- The `needs_backfill_tmdb` flag state after `tmdbBackfillBatch` processes
one row (lines 1479-1603): `true` means the flag was left set so the row is
retried on a future page, `false` means the flag was cleared (either
explicitly on a non-retriable failure, or by the merge `UPDATE` on success). -/
def backfillRowFlagAfter (r : BackfillRow) (find : FindOutcome)
    (det : DetailOutcome) : Bool :=
  match r.imdbID with
  | none => false
  | some s =>
    if s = "" then false
    else if resolveTmdbID r find = 0 then false
    else
      match det with
      | .netError => false
      | .response status _ =>
        if status ≠ 200 then
          if status = 429 then true else false
        else false

/-- C5: the enrichment flag is left set (so the row is retried on a future
page) exactly when the row reached the detail call — it has a usable IMDb id
and a resolved TMDB id — and that call returned HTTP 429; every other outcome
(no external id, no resolvable TMDB id, network error, non-200 non-429 status,
and also success) clears the flag. -/
theorem c5_only_throttling_is_retried (r : BackfillRow) (find : FindOutcome)
    (det : DetailOutcome) :
    backfillRowFlagAfter r find det = true ↔
      (∃ s, r.imdbID = some s ∧ s ≠ "") ∧
      resolveTmdbID r find ≠ 0 ∧
      ∃ d, det = DetailOutcome.response 429 d := by
  unfold backfillRowFlagAfter
  cases h : r.imdbID with
  | none => simp [h]
  | some s =>
    by_cases hs : s = ""
    · simp [hs]
    · by_cases hres : resolveTmdbID r find = 0
      · simp [hs, hres]
      · cases det with
        | netError => simp [hs, hres]
        | response status d =>
          by_cases h200 : status = 200
          · subst h200
            simp [hs, hres]
          · by_cases h429 : status = 429
            · subst h429
              simp [hs, hres]
            · simp [hs, hres, h200, h429]


/-- Splitting a character list on a separator, keeping empty segments — the
semantics of Go `strings.Split` for a one-character separator. -/
def splitOnChar (c : Char) : List Char → List (List Char)
  | [] => [[]]
  | x :: xs =>
    let r := splitOnChar c xs
    if x = c then [] :: r
    else
      match r with
      | [] => [[x]]
      | y :: ys => (x :: y) :: ys

/-- `strings.Split(line, "\t")`: the tab-separated fields of a dataset line. -/
def epFields (line : String) : List String :=
  (splitOnChar '\t' line.data).map (fun cs => String.mk cs)

def isDigitChar (c : Char) : Bool := 48 ≤ c.toNat && c.toNat ≤ 57

def goAtoiChars : Bool → List Char → Option Int
  | _, [] => none
  | neg, ds =>
    if ds.all isDigitChar then
      let n : Nat := ds.foldl (fun acc c => acc * 10 + (c.toNat - 48)) 0
      let v : Int := if neg then -(n : Int) else (n : Int)
      if v < -(2 ^ 63) ∨ 2 ^ 63 - 1 < v then none else some v
    else none

/-- Go `strconv.Atoi`: optional sign, then decimal digits only; empty input,
stray characters, and int64 overflow all yield an error (modelled as `none`). -/
def goAtoi (s : String) : Option Int :=
  match s.data with
  | [] => none
  | c :: rest =>
    if c = '-' then goAtoiChars true rest
    else if c = '+' then goAtoiChars false rest
    else goAtoiChars false (c :: rest)

/-- An existing `show_episodes` row loaded into the diff cache; a NULL
`display_name` scans to the empty string via `sql.NullString`. -/
structure ExistingEpisode where
  id : Int
  displayName : String
deriving Repr, DecidableEq

/-- The in-memory caches `syncEpisodes` loads before scanning the dataset:
show imdb id to show id, (show id, season) to season id, (season id, episode)
to existing episode, and the episode-title cross-reference collected during the
title scan. -/
structure EpCaches where
  showCache : List (String × Int)
  existingSeasons : List ((Int × Int) × Int)
  existingEpisodes : List ((Int × Int) × ExistingEpisode)
  episodeTitles : List (String × String)
deriving Repr, DecidableEq

structure EpisodeInsert where
  seasonID : Int
  episode : Int
  displayName : Option String
deriving Repr, DecidableEq

structure EpisodeUpdate where
  id : Int
  displayName : String
deriving Repr, DecidableEq

/-- The accumulating state of the second `syncEpisodes` scan pass. -/
structure EpScanState where
  toInsert : List EpisodeInsert
  toUpdate : List EpisodeUpdate
  scanned : Nat
  unchanged : Nat
  skipped : Nat
deriving Repr, DecidableEq

/-- The zero-initialised scan state (`var toInsert ...; var scanned, unchanged,
skipped int64`). -/
def epScanInit : EpScanState := ⟨[], [], 0, 0, 0⟩

/-- The display name the scan cross-references from the episode-title map
collected during the title pass (missing key reads as the empty string). -/
def epDisplayName (caches : EpCaches) (line : String) : String :=
  (caches.episodeTitles.lookup ((epFields line).getD 0 "")).getD ""

/-- One iteration of the second `syncEpisodes` scan loop (`cmd/sync/main.go`
lines 1032-1098): split the line on tabs, skip short lines, count lines whose
season or episode field is the `\N` placeholder as skipped, silently skip
lines whose season or episode fails `strconv.Atoi` or whose show/season is
unknown, and classify the rest as update (only when the cross-referenced
display name is non-empty and differs) or insert or unchanged. -/
def processEpisodeLine (caches : EpCaches) (st : EpScanState) (line : String) :
    EpScanState :=
  if (epFields line).length < 4 then st
  else if (epFields line).getD 2 "" = "\\N" ∨ (epFields line).getD 3 "" = "\\N" then
    { st with skipped := st.skipped + 1 }
  else
    match goAtoi ((epFields line).getD 2 "") with
    | none => st
    | some season =>
      match goAtoi ((epFields line).getD 3 "") with
      | none => st
      | some episode =>
        match caches.showCache.lookup ((epFields line).getD 1 "") with
        | none => st
        | some showID =>
          match caches.existingSeasons.lookup (showID, season) with
          | none => st
          | some seasonID =>
            match caches.existingEpisodes.lookup (seasonID, episode) with
            | some existing =>
              if epDisplayName caches line ≠ "" ∧
                  existing.displayName ≠ epDisplayName caches line then
                { st with
                  scanned := st.scanned + 1
                  toUpdate := st.toUpdate ++
                    [⟨existing.id, epDisplayName caches line⟩] }
              else
                { st with
                  scanned := st.scanned + 1
                  unchanged := st.unchanged + 1 }
            | none =>
              { st with
                scanned := st.scanned + 1
                toInsert := st.toInsert ++
                  [⟨seasonID, episode,
                    if epDisplayName caches line = "" then none
                    else some (epDisplayName caches line)⟩] }

/-- Empty caches: the unparseable-season path is taken before any cache is
consulted, so they are irrelevant to the C7 counterexample. -/
def c7Caches : EpCaches := ⟨[], [], [], []⟩

/-- C7 counterexample: a well-formed dataset line whose season field is
unparseable as an integer (but is not the `\N` placeholder) is skipped without
being imported, yet the skipped counter is NOT incremented — the scan state is
returned unchanged — contradicting the claim that such lines are counted in
the skipped counter. -/
theorem c7_unparseable_line_not_counted :
    (epFields "tt0041951\ttt0989125\tx\t9").length = 4 ∧
    (epFields "tt0041951\ttt0989125\tx\t9").getD 2 "" = "x" ∧
    goAtoi "x" = none ∧
    processEpisodeLine c7Caches epScanInit "tt0041951\ttt0989125\tx\t9"
      = epScanInit ∧
    (processEpisodeLine c7Caches epScanInit "tt0041951\ttt0989125\tx\t9").skipped
      = epScanInit.skipped := by
  refine ⟨by decide, by decide, by decide, by decide, by decide⟩

/-- C7 (amended): for a dataset line with at least four fields, a season or
episode field equal to the `\N` placeholder skips the line and increments the
skipped counter, while a non-placeholder season or episode field that fails
integer parsing skips the line leaving the scan state — including the skipped
counter — entirely unchanged; in both cases nothing is queued for insert or
update and the scan continues (this loop has no abort path). -/
theorem c7_placeholder_counted_unparseable_not (caches : EpCaches)
    (st : EpScanState) (line : String)
    (hlen : 4 ≤ (epFields line).length) :
    (((epFields line).getD 2 "" = "\\N" ∨ (epFields line).getD 3 "" = "\\N") →
      processEpisodeLine caches st line = { st with skipped := st.skipped + 1 }) ∧
    ((epFields line).getD 2 "" ≠ "\\N" → (epFields line).getD 3 "" ≠ "\\N" →
      (goAtoi ((epFields line).getD 2 "") = none ∨
        goAtoi ((epFields line).getD 3 "") = none) →
      processEpisodeLine caches st line = st) := by
  have hnot : ¬ (epFields line).length < 4 := by omega
  constructor
  · intro hph
    unfold processEpisodeLine
    rw [if_neg hnot, if_pos hph]
  · intro h2 h3 hbad
    unfold processEpisodeLine
    rw [if_neg hnot, if_neg (not_or.mpr ⟨h2, h3⟩)]
    rcases hbad with hb | hb
    · rw [hb]
    · simp only [hb]
      cases goAtoi ((epFields line).getD 2 "") <;> rfl

/-- C7 amended witness: a placeholder season is counted as skipped, while an
unparseable season leaves the state untouched. -/
theorem c7_placeholder_counted_unparseable_not_witness :
    processEpisodeLine c7Caches epScanInit "e1\tp1\t\\N\t3"
      = { epScanInit with skipped := epScanInit.skipped + 1 } ∧
    processEpisodeLine c7Caches epScanInit "e1\tp1\tx\t3" = epScanInit :=
  ⟨(c7_placeholder_counted_unparseable_not c7Caches epScanInit
      "e1\tp1\t\\N\t3" (by decide)).1 (Or.inl (by decide)),
   (c7_placeholder_counted_unparseable_not c7Caches epScanInit
      "e1\tp1\tx\t3" (by decide)).2 (by decide) (by decide) (Or.inl (by decide))⟩

/-- The whole second scan pass of `syncEpisodes` over the dataset lines,
starting from the zero-initialised state. -/
def scanEpisodeLines (caches : EpCaches) (lines : List String) : EpScanState :=
  lines.foldl (processEpisodeLine caches) epScanInit

/-- The effect of the batched `UPDATE show_episodes SET display_name = CASE
WHEN id = $1 THEN $2 ... END WHERE id IN (...)` (lines 1144-1178) on a single
`(id, display_name)` row: the first queued update matching the row's id wins,
rows outside the id set are untouched. -/
def updateEpisodeRow (updates : List EpisodeUpdate) (row : Int × String) :
    Int × String :=
  match updates.find? (fun u => u.id == row.1) with
  | some u => (row.1, u.displayName)
  | none => row

theorem processEpisodeLine_toUpdate_spec (caches : EpCaches) (st : EpScanState)
    (line : String) :
    (processEpisodeLine caches st line).toUpdate = st.toUpdate ∨
    ∃ key e, caches.existingEpisodes.lookup key = some e ∧
      epDisplayName caches line ≠ "" ∧
      e.displayName ≠ epDisplayName caches line ∧
      (processEpisodeLine caches st line).toUpdate
        = st.toUpdate ++ [⟨e.id, epDisplayName caches line⟩] := by
  unfold processEpisodeLine
  split
  · exact Or.inl rfl
  split
  · exact Or.inl rfl
  split
  · exact Or.inl rfl
  next season hseason =>
  split
  · exact Or.inl rfl
  next episode hepisode =>
  split
  · exact Or.inl rfl
  next showID hshow =>
  split
  · exact Or.inl rfl
  next seasonID hseasonID =>
  split
  next existing hex =>
    split
    next hcond =>
      exact Or.inr ⟨(seasonID, episode), existing, hex, hcond.1, hcond.2, rfl⟩
    next =>
      exact Or.inl rfl
  next hnone =>
    exact Or.inl rfl

theorem scan_toUpdate_spec (caches : EpCaches) (lines : List String) :
    ∀ st : EpScanState,
      (∀ u ∈ st.toUpdate, u.displayName ≠ "" ∧ ∃ key e,
          caches.existingEpisodes.lookup key = some e ∧ e.id = u.id ∧
          e.displayName ≠ u.displayName) →
      ∀ u ∈ (lines.foldl (processEpisodeLine caches) st).toUpdate,
        u.displayName ≠ "" ∧ ∃ key e,
          caches.existingEpisodes.lookup key = some e ∧ e.id = u.id ∧
          e.displayName ≠ u.displayName := by
  induction lines with
  | nil => intro st h; exact h
  | cons line rest ih =>
    intro st h
    apply ih
    intro u hu
    rcases processEpisodeLine_toUpdate_spec caches st line with
      heq | ⟨key, e, hex, hne, hdiff, heq⟩
    · rw [heq] at hu
      exact h u hu
    · rw [heq] at hu
      rcases List.mem_append.mp hu with h1 | h2
      · exact h u h1
      · have hu2 := List.mem_singleton.mp h2
        subst hu2
        exact ⟨hne, key, e, hex, rfl, hdiff⟩

/-- C10: an update is queued for an existing episode only when the
dataset-derived display name is non-empty and differs from the stored name; in
consequence, applying the queued batched updates never overwrites a stored
episode display name with the empty string. -/
theorem c10_episode_name_never_emptied (caches : EpCaches)
    (lines : List String) :
    (∀ u ∈ (scanEpisodeLines caches lines).toUpdate,
        u.displayName ≠ "" ∧ ∃ key e,
          caches.existingEpisodes.lookup key = some e ∧ e.id = u.id ∧
          e.displayName ≠ u.displayName) ∧
    (∀ row : Int × String,
        (updateEpisodeRow (scanEpisodeLines caches lines).toUpdate row).2 = "" →
        row.2 = "") := by
  have h1 := scan_toUpdate_spec caches lines epScanInit
    (by intro u hu; simp [epScanInit] at hu)
  refine ⟨h1, ?_⟩
  intro row hrow
  unfold updateEpisodeRow at hrow
  cases hfind : (scanEpisodeLines caches lines).toUpdate.find?
      (fun u => u.id == row.1) with
  | none =>
    rw [hfind] at hrow
    exact hrow
  | some u =>
    rw [hfind] at hrow
    simp only at hrow
    have hu := List.mem_of_find?_eq_some hfind
    exact absurd hrow (h1 u hu).1

/-- The sentinel the title miss-path stores in `titles.image_url` when TMDB
has no poster (`UPDATE titles SET image_url = 'none', ...`). -/
def titleNotFoundSentinel : String := "none"

/-- The sentinel stored in episode (and stripped from title-list) image fields
when a TMDB episode lookup finds nothing. -/
def episodeNotFoundSentinel : String := "TMDB_NOT_FOUND_DO_NOT_RETRY"

/-- The server's `Episode` model (timestamps and dates as opaque strings). -/
structure Episode where
  episodeID : Int
  seasonID : Int
  episodeNumber : Int
  displayName : Option String
  imageURL : Option String
  airDate : Option String
  runtimeMinutes : Option Int
  synopsis : Option String
deriving Repr, DecidableEq

/-- The server's `Season` model. -/
structure Season where
  seasonID : Int
  showID : Int
  seasonNumber : Int
  episodes : List Episode
deriving Repr, DecidableEq

/-- The subset of the server's `Title` model consulted by the lazy-fetch gate;
`episodesCheckedAt` is a timestamp in seconds. -/
structure Title where
  titleID : Int
  titleType : String
  displayName : String
  imdbID : Option String
  imageURL : Option String
  tmdbID : Option Int
  episodesCheckedAt : Option Int
  needsBackfillTMDB : Bool
deriving Repr, DecidableEq

/-- The server's `Show` model. -/
structure Show where
  showID : Int
  titleID : Int
  title : Title
  seasons : List Season
deriving Repr, DecidableEq

/-- The row shape returned by the titles list page query. -/
structure TitleListItem where
  movieID : Option Int
  showID : Option Int
  titleID : Int
  titleType : String
  displayName : String
  startYear : Option Int
  imdbID : Option String
  imageURL : Option String
  originalLanguage : Option String
  numVotes : Option Int
  averageRating : Option Rat
deriving Repr, DecidableEq

/-- `stripEpisodeSentinels` (server, lines 892-901): replace every episode
image field equal to the episode sentinel with nil before rendering. -/
def stripEpisodeSentinels (sh : Show) : Show :=
  { sh with
    seasons := sh.seasons.map (fun season =>
      { season with
        episodes := season.episodes.map (fun ep =>
          if ep.imageURL = some episodeNotFoundSentinel then
            { ep with imageURL := none }
          else ep) }) }

/-- The sentinel-stripping loop at the end of `handleTitlesList` (lines
1237-1242): it removes only the `TMDB_NOT_FOUND_DO_NOT_RETRY` constant from
title image fields. -/
def stripTitleListSentinels (items : List TitleListItem) : List TitleListItem :=
  items.map (fun it =>
    if it.imageURL = some episodeNotFoundSentinel then { it with imageURL := none }
    else it)

/-- The miss-path `UPDATE` of `fetchAndStoreTMDBImage` (lines 617-627): when
the Find API yields no poster, the title-level sentinel `'none'` is stored in
`image_url` and the remaining metadata is merged. -/
def fetchAndStoreTMDBImageMissUpdate (row : TitleRow) (tmdbID : Int)
    (origLang releaseDate : String) (popularity : Rat)
    (originCountry : String) : TitleRow :=
  { tmdb_id := some tmdbID
    image_url := some titleNotFoundSentinel
    original_language := sqlCoalesce (sqlNullif origLang) row.original_language
    release_date := if releaseDate = "" then row.release_date else some releaseDate
    tmdb_popularity := some popularity
    origin_country := sqlCoalesce (sqlNullif originCountry) row.origin_country
    runtime_minutes := row.runtime_minutes
    needs_backfill_tmdb := false }

/-- A concrete titles-list row whose stored image field holds the title-level
sentinel `'none'`. -/
def c3Item : TitleListItem :=
  { movieID := some 7
    showID := none
    titleID := 7
    titleType := "movie"
    displayName := "Some Movie"
    startYear := some 1949
    imdbID := some "tt0041951"
    imageURL := some titleNotFoundSentinel
    originalLanguage := some "en"
    numVotes := some 12
    averageRating := none }

/-- C3 counterexample: the title miss-path durably stores the title-level
sentinel `'none'` in `image_url`, but the `handleTitlesList` strip pass removes
only the episode-level constant, so a titles-list row whose image field holds
`'none'` reaches the template with the sentinel still visible — contradicting
the claim that no caller or template ever observes a sentinel string. -/
theorem c3_title_sentinel_reaches_template :
    (fetchAndStoreTMDBImageMissUpdate c1Row 0 "" "" 0 "").image_url
      = some titleNotFoundSentinel ∧
    stripTitleListSentinels [c3Item] = [c3Item] ∧
    (stripTitleListSentinels [c3Item]).map (fun it => it.imageURL)
      = [some "none"] := by
  refine ⟨by decide, by decide, by decide⟩

/-- C3 (amended): the strip passes remove every occurrence of the
episode-level sentinel — after `stripEpisodeSentinels` no episode image field
holds it, and after the titles-list strip no returned item holds it — but the
title-level sentinel `'none'` is not stripped anywhere, so it can reach the
rendering layer. -/
theorem c3_episode_sentinels_always_stripped :
    (∀ sh : Show, ∀ season ∈ (stripEpisodeSentinels sh).seasons,
        ∀ ep ∈ season.episodes, ep.imageURL ≠ some episodeNotFoundSentinel) ∧
    (∀ items : List TitleListItem, ∀ it ∈ stripTitleListSentinels items,
        it.imageURL ≠ some episodeNotFoundSentinel) := by
  constructor
  · intro sh season hs ep he
    simp only [stripEpisodeSentinels] at hs
    rcases List.mem_map.mp hs with ⟨s0, hs0, rfl⟩
    rcases List.mem_map.mp he with ⟨e0, he0, rfl⟩
    by_cases h : e0.imageURL = some episodeNotFoundSentinel
    · simp [h]
    · simp [h]
  · intro items it hit
    simp only [stripTitleListSentinels] at hit
    rcases List.mem_map.mp hit with ⟨i0, hi0, rfl⟩
    by_cases h : i0.imageURL = some episodeNotFoundSentinel
    · simp [h]
    · simp [h]


/-- `needsFetch` (server, lines 653-658): a title image is eligible for a lazy
fetch iff the row carries a non-empty IMDb id and the image field is NULL or
empty — a stored sentinel (or any other value) makes it ineligible. -/
def needsFetch (imageURL imdbID : Option String) : Bool :=
  if imdbID = none ∨ imdbID.getD "" = "" then false
  else if imageURL = none ∨ imageURL = some "" then true
  else false

/-- The number of external Find-API calls `maybeFetchImage` (lines 662-675)
issues for a title: one when `needsFetch` holds, zero otherwise. -/
def maybeFetchImageCalls (title : Title) : Nat :=
  if needsFetch title.imageURL title.imdbID then 1 else 0

/-- A reference into the show's in-memory season/episode arrays, as collected
by `maybeFetchEpisodes` (lines 939-953). -/
structure EpRef where
  seasonIdx : Nat
  episodeIdx : Nat
  seasonNum : Int
  episodeNum : Int
  episodeID : Int
deriving Repr, DecidableEq

/-- The values `fetchAndStoreEpisodeData` reports back for one episode. -/
structure EpFetchResult where
  imageURL : String
  airDate : String
  displayName : String
  synopsis : String
  runtime : Int
  ok : Bool
  notFound : Bool
deriving Repr, DecidableEq

/-- One slot of the `results` array of `maybeFetchEpisodes`. -/
structure EpResult where
  ref : EpRef
  res : EpFetchResult
deriving Repr, DecidableEq

/-- The eligibility test of the collection loop (line 949): image NULL, empty,
or holding the episode sentinel. -/
def episodeNeedsFetch (ep : Episode) : Bool :=
  if ep.imageURL = none ∨ ep.imageURL = some ""
      ∨ ep.imageURL = some episodeNotFoundSentinel then true
  else false

/-- The `toFetch` collection loop of `maybeFetchEpisodes` (lines 946-953). -/
def collectToFetch (seasons : List Season) : List EpRef :=
  (seasons.enum.map (fun si =>
    si.2.episodes.enum.filterMap (fun ei =>
      if episodeNeedsFetch ei.2 then
        some ⟨si.1, ei.1, si.2.seasonNumber, ei.2.episodeNumber, ei.2.episodeID⟩
      else none))).flatten

/-- Episodes requested for a season (the `total` counter of the per-season
stats map built at lines 988-999). -/
def seasonTotalCount (results : List EpResult) (sn : Int) : Nat :=
  results.countP (fun r2 => r2.ref.seasonNum == sn)

/-- Episodes requested for a season that came back 404 (the `notFound`
counter of the same stats map). -/
def seasonNotFoundCount (results : List EpResult) (sn : Int) : Nat :=
  results.countP (fun r2 => (r2.ref.seasonNum == sn) && r2.res.notFound)

/-- The cumulative-offset map built at lines 1001-1008: visiting the seasons
in order, each season number is associated with the episode count of all
seasons seen before it. -/
def episodeOffsetFrom (cum : Int) : List Season → List (Int × Int)
  | [] => []
  | s :: rest => (s.seasonNumber, cum) ::
      episodeOffsetFrom (cum + s.episodes.length) rest

/-- Lookup in an association list built by repeated map insertion: the LAST
binding of a key wins, a missing key reads as `none`. -/
def mapLookupLast : List (Int × Int) → Int → Option Int
  | [], _ => none
  | (k, v) :: rest, key =>
    match mapLookupLast rest key with
    | some v2 => some v2
    | none => if key = k then some v else none

/-- `episodeOffset[sn]` with Go map semantics (missing key reads as zero). -/
def episodeOffset (seasons : List Season) (sn : Int) : Int :=
  (mapLookupLast (episodeOffsetFrom 0 seasons) sn).getD 0

/-- The index set the omniseason fallback retries (lines 1010-1024): result
indices whose own fetch 404'd, whose entire season's requested episodes
404'd, and whose season is not season one. -/
def omniRetryIndices (results : List EpResult) : List Nat :=
  (List.range results.length).filter (fun i =>
    match results.get? i with
    | some res =>
      res.res.notFound &&
        (seasonNotFoundCount results res.ref.seasonNum
          == seasonTotalCount results res.ref.seasonNum) &&
        !(res.ref.seasonNum == 1)
    | none => false)

/-- The retry call issued for one retried result (lines 1036-1037): target
episode id, season argument `1`, and the absolute episode index
`episodeOffset[seasonNum] + episodeNum`. -/
def omniRetryCallFor (seasons : List Season) (res : EpResult) :
    Int × Int × Int :=
  (res.ref.episodeID, 1, episodeOffset seasons res.ref.seasonNum
    + res.ref.episodeNum)

/-- All retry calls of the omniseason round (lines 1026-1044). -/
def omniRetryCalls (seasons : List Season) (results : List EpResult) :
    List (Int × Int × Int) :=
  (omniRetryIndices results).filterMap (fun i =>
    (results.get? i).map (fun res => omniRetryCallFor seasons res))

/-- The `(season, episode)` arguments of every episode-API call one
non-cooldown invocation issues: the first round over `toFetch`, then the
omniseason retry round. -/
def episodeFetchRound (sh : Show) (oracle : EpRef → EpFetchResult) :
    List (Int × Int) :=
  if (collectToFetch sh.seasons).isEmpty then []
  else
    (collectToFetch sh.seasons).map (fun ref => (ref.seasonNum, ref.episodeNum))
      ++ (omniRetryIndices ((collectToFetch sh.seasons).map
            (fun ref => EpResult.mk ref (oracle ref)))).filterMap (fun i =>
          (((collectToFetch sh.seasons).map
            (fun ref => EpResult.mk ref (oracle ref))).get? i).map (fun res =>
              ((1 : Int), episodeOffset sh.seasons res.ref.seasonNum
                + res.ref.episodeNum)))

/-- The 24-hour episode cooldown (`24*time.Hour`), in seconds. -/
def episodesCooldown : Int := 24 * 60 * 60

/-- The cooldown guard of `maybeFetchEpisodes` (lines 931-936):
`EpisodesCheckedAt != nil && time.Since(*EpisodesCheckedAt) < 24*time.Hour`. -/
def withinCooldown (checkedAt : Option Int) (now : Int) : Bool :=
  match checkedAt with
  | some t => decide (now - t < episodesCooldown)
  | none => false

/-- The `(season, episode)` arguments of every episode-API call one
invocation of `maybeFetchEpisodes` (lines 906-1082) issues, with the guards in
source order: missing API key, missing IMDb id, unresolvable TMDB id (the
Find-API resolution outcome is the `resolvedTmdbID` parameter), and the
24-hour cooldown all yield zero episode calls. -/
def maybeFetchEpisodesEpisodeCalls (apiKey : String) (sh : Show) (now : Int)
    (resolvedTmdbID : Int) (oracle : EpRef → EpFetchResult) :
    List (Int × Int) :=
  if apiKey = "" then []
  else if sh.title.imdbID = none ∨ sh.title.imdbID.getD "" = "" then []
  else if (if sh.title.tmdbID.getD 0 = 0 then resolvedTmdbID
           else sh.title.tmdbID.getD 0) = 0 then []
  else if withinCooldown sh.title.episodesCheckedAt now then []
  else episodeFetchRound sh oracle

/-- C9: a detail view of a show whose episodes-last-checked timestamp is
within the 24-hour cooldown issues zero episode-API calls regardless of how
many episodes remain unresolved or hold the sentinel; and a title image field
holding either sentinel is not eligible for fetch — `needsFetch` accepts
exactly the rows with a non-empty IMDb id and a NULL or empty image field, so
`maybeFetchImage` issues zero external calls on a sentinel-bearing title. -/
theorem c9_cooldown_and_sentinel_block_calls (apiKey : String) (sh : Show)
    (now t : Int) (resolvedTmdbID : Int) (oracle : EpRef → EpFetchResult)
    (hchk : sh.title.episodesCheckedAt = some t)
    (hcool : now - t < episodesCooldown) :
    maybeFetchEpisodesEpisodeCalls apiKey sh now resolvedTmdbID oracle = [] ∧
    needsFetch (some titleNotFoundSentinel) sh.title.imdbID = false ∧
    needsFetch (some episodeNotFoundSentinel) sh.title.imdbID = false ∧
    maybeFetchImageCalls { sh.title with imageURL := some titleNotFoundSentinel }
      = 0 ∧
    (∀ img imdb : Option String,
        needsFetch img imdb = true ↔
          (∃ s, imdb = some s ∧ s ≠ "") ∧ (img = none ∨ img = some "")) := by
  have hwc : withinCooldown sh.title.episodesCheckedAt now = true := by
    rw [hchk]
    exact decide_eq_true hcool
  have hnf : ∀ img imdb : Option String,
      needsFetch img imdb = true ↔
        (∃ s, imdb = some s ∧ s ≠ "") ∧ (img = none ∨ img = some "") := by
    intro img imdb
    unfold needsFetch
    by_cases hid : imdb = none ∨ imdb.getD "" = ""
    · rw [if_pos hid]
      refine iff_of_false (by simp) ?_
      rintro ⟨⟨s, rfl, hs⟩, h2⟩
      rcases hid with hid | hid
      · exact Option.noConfusion hid
      · exact hs hid
    · rw [if_neg hid]
      push_neg at hid
      obtain ⟨hid1, hid2⟩ := hid
      by_cases himg : img = none ∨ img = some ""
      · rw [if_pos himg]
        refine iff_of_true rfl ⟨⟨imdb.getD "", ?_, hid2⟩, himg⟩
        cases imdb with
        | none => exact absurd rfl hid1
        | some v => rfl
      · rw [if_neg himg]
        refine iff_of_false (by simp) ?_
        rintro ⟨h1, h2⟩
        exact himg h2
  refine ⟨?_, ?_, ?_, ?_, hnf⟩
  · unfold maybeFetchEpisodesEpisodeCalls
    by_cases hk : apiKey = ""
    · rw [if_pos hk]
    · rw [if_neg hk]
      by_cases him : sh.title.imdbID = none ∨ sh.title.imdbID.getD "" = ""
      · rw [if_pos him]
      · rw [if_neg him]
        by_cases hid : (if sh.title.tmdbID.getD 0 = 0 then resolvedTmdbID
            else sh.title.tmdbID.getD 0) = 0
        · rw [if_pos hid]
        · rw [if_neg hid, if_pos hwc]
  · rw [Bool.eq_false_iff]
    intro hcontra
    rcases (hnf (some titleNotFoundSentinel) sh.title.imdbID).mp hcontra with
      ⟨h1, h2⟩
    rcases h2 with h2 | h2
    · exact Option.noConfusion h2
    · simp [titleNotFoundSentinel] at h2
  · rw [Bool.eq_false_iff]
    intro hcontra
    rcases (hnf (some episodeNotFoundSentinel) sh.title.imdbID).mp hcontra with
      ⟨h1, h2⟩
    rcases h2 with h2 | h2
    · exact Option.noConfusion h2
    · simp [episodeNotFoundSentinel] at h2
  · unfold maybeFetchImageCalls
    rw [if_neg]
    intro hcontra
    rcases (hnf (some titleNotFoundSentinel) sh.title.imdbID).mp hcontra with
      ⟨h1, h2⟩
    rcases h2 with h2 | h2
    · exact Option.noConfusion h2
    · simp [titleNotFoundSentinel] at h2

/-- A concrete show inside its cooldown window, with an unresolved episode and
a sentinel-bearing episode. -/
def c9Show : Show :=
  { showID := 5
    titleID := 9
    title :=
      { titleID := 9
        titleType := "show"
        displayName := "Some Show"
        imdbID := some "tt0989125"
        imageURL := some "https://image.tmdb.org/t/p/w500/x.jpg"
        tmdbID := some 42
        episodesCheckedAt := some 1000
        needsBackfillTMDB := false }
    seasons :=
      [⟨21, 5, 1,
        [⟨201, 21, 1, none, none, none, none, none⟩,
         ⟨202, 21, 2, none, some episodeNotFoundSentinel, none, none, none⟩]⟩] }

/-- C9 witness: inside the cooldown the gate issues zero episode calls for the
concrete show even though both of its episodes are eligible for fetch, and a
title image holding the title-level sentinel is not eligible for fetch. -/
theorem c9_cooldown_and_sentinel_block_calls_witness :
    maybeFetchEpisodesEpisodeCalls "key" c9Show 1500 0
      (fun _ => ⟨"", "", "", "", 0, false, true⟩) = [] ∧
    needsFetch (some titleNotFoundSentinel) c9Show.title.imdbID = false :=
  ⟨(c9_cooldown_and_sentinel_block_calls "key" c9Show 1500 1000 0
      (fun _ => ⟨"", "", "", "", 0, false, true⟩) rfl (by decide)).1,
   (c9_cooldown_and_sentinel_block_calls "key" c9Show 1500 1000 0
      (fun _ => ⟨"", "", "", "", 0, false, true⟩) rfl (by decide)).2.1⟩

theorem countP_and_eq_countP_iff {α : Type} (l : List α) (a b : α → Bool) :
    (l.countP (fun x => a x && b x) = l.countP a) ↔
      ∀ x ∈ l, a x = true → b x = true := by
  induction l with
  | nil => simp
  | cons x xs ih =>
    rw [List.countP_cons, List.countP_cons, List.forall_mem_cons]
    by_cases ha : a x = true
    · by_cases hb : b x = true
      · have hab : (a x && b x) = true := by simp [ha, hb]
        rw [if_pos hab, if_pos ha]
        simp [ha, hb, ih]
      · have hle : xs.countP (fun y => a y && b y) ≤ xs.countP a :=
          List.countP_mono_left (fun y _ h => by
            simp only [Bool.and_eq_true] at h
            exact h.1)
        have hab : ¬ ((a x && b x) = true) := by simp [hb]
        rw [if_neg hab, if_pos ha]
        constructor
        · intro heq
          exfalso
          omega
        · rintro ⟨h1, h2⟩
          exact absurd (h1 ha) hb
    · have hab : ¬ ((a x && b x) = true) := by simp [ha]
      rw [if_neg hab, if_neg ha]
      simp only [Nat.add_zero]
      rw [ih]
      constructor
      · intro h
        exact ⟨fun hax => absurd hax ha, h⟩
      · rintro ⟨h1, h2⟩
        exact h2

theorem mapLookupLast_offsets_eq_none (c : Int) (seasons : List Season)
    (sn : Int) (h : sn ∉ seasons.map Season.seasonNumber) :
    mapLookupLast (episodeOffsetFrom c seasons) sn = none := by
  induction seasons generalizing c with
  | nil => rfl
  | cons s rest ih =>
    simp only [List.map_cons, List.mem_cons, not_or] at h
    obtain ⟨h1, h2⟩ := h
    unfold episodeOffsetFrom mapLookupLast
    rw [ih _ h2]
    simp [h1]

theorem episodeOffsetFrom_lookup (seasons : List Season) (sn : Int) :
    ∀ c : Int, (seasons.map Season.seasonNumber).Sorted (· < ·) →
      sn ∈ seasons.map Season.seasonNumber →
      mapLookupLast (episodeOffsetFrom c seasons) sn
        = some (c + ((seasons.filter (fun s => s.seasonNumber < sn)).map
            (fun s => (s.episodes.length : Int))).sum) := by
  induction seasons with
  | nil =>
    intro c _ hmem
    simp at hmem
  | cons s rest ih =>
    intro c hS hmem
    rw [List.map_cons, List.sorted_cons] at hS
    obtain ⟨hhead, hrest⟩ := hS
    rw [List.map_cons, List.mem_cons] at hmem
    unfold episodeOffsetFrom mapLookupLast
    by_cases heq : sn = s.seasonNumber
    · have hnot : sn ∉ rest.map Season.seasonNumber := by
        intro hc
        have := hhead sn hc
        omega
      rw [mapLookupLast_offsets_eq_none _ _ _ hnot]
      have hfilter : (s :: rest).filter (fun s2 => s2.seasonNumber < sn) = [] := by
        rw [List.filter_eq_nil_iff]
        intro s2 hs2
        rcases List.mem_cons.mp hs2 with rfl | hmem2
        · simp
          omega
        · have := hhead s2.seasonNumber (List.mem_map_of_mem _ hmem2)
          simp
          omega
      rw [hfilter]
      simp [heq]
    · have hmem2 : sn ∈ rest.map Season.seasonNumber := by
        rcases hmem with h | h
        · exact absurd h heq
        · exact h
      have hlt : s.seasonNumber < sn := hhead sn hmem2
      rw [ih (c + s.episodes.length) hrest hmem2]
      have hfilter : (s :: rest).filter (fun s2 => s2.seasonNumber < sn)
          = s :: rest.filter (fun s2 => s2.seasonNumber < sn) := by
        rw [List.filter_cons_of_pos]
        exact decide_eq_true hlt
      rw [hfilter]
      simp only [List.map_cons, List.sum_cons]
      congr 1
      ring

theorem omniRetryIndices_mem_iff (results : List EpResult) (i : Nat) :
    i ∈ omniRetryIndices results ↔
      ∃ res, results.get? i = some res ∧
        (∀ r2 ∈ results, r2.ref.seasonNum = res.ref.seasonNum →
          r2.res.notFound = true) ∧
        res.ref.seasonNum ≠ 1 := by
  unfold omniRetryIndices
  rw [List.mem_filter, List.mem_range]
  constructor
  · rintro ⟨hlt, hp⟩
    cases hres : results.get? i with
    | none =>
      rw [hres] at hp
      exact absurd hp (by simp)
    | some res =>
      rw [hres] at hp
      simp only [Bool.and_eq_true, Bool.not_eq_true', beq_eq_false_iff_ne,
        beq_iff_eq, ne_eq] at hp
      obtain ⟨⟨hnf, hcnt⟩, hne⟩ := hp
      refine ⟨res, rfl, ?_, hne⟩
      have hc : seasonNotFoundCount results res.ref.seasonNum
          = seasonTotalCount results res.ref.seasonNum := hcnt
      have hall := (countP_and_eq_countP_iff results
          (fun r2 => r2.ref.seasonNum == res.ref.seasonNum)
          (fun r2 => r2.res.notFound)).mp hc
      intro r2 hr2 hsn
      exact hall r2 hr2 (by rw [hsn]; exact beq_self_eq_true _)
  · rintro ⟨res, hres, hall, hne⟩
    have hlt : i < results.length := by
      by_contra hc
      rw [List.get?_eq_none.mpr (by omega)] at hres
      exact Option.noConfusion hres
    refine ⟨hlt, ?_⟩
    rw [hres]
    have h1 : res.res.notFound = true := hall res (List.get?_mem hres) rfl
    have hc : seasonNotFoundCount results res.ref.seasonNum
        = seasonTotalCount results res.ref.seasonNum :=
      (countP_and_eq_countP_iff results
          (fun r2 => r2.ref.seasonNum == res.ref.seasonNum)
          (fun r2 => r2.res.notFound)).mpr
        (fun r2 hr2 hbeq => hall r2 hr2 (beq_iff_eq.mp hbeq))
    simp [h1, hc, hne]

/-- C4: within one episode lazy-fetch invocation, the omniseason retry is
attempted for a result index exactly when every episode requested for that
result's season came back not-found and the season is not season one; each
index is retried at most once (the index list has no duplicates); and, for
seasons listed in ascending season-number order, the retry targets season one
with absolute index equal to the sum of the episode counts of all
strictly-earlier seasons plus the episode's own number. -/
theorem c4_omniseason_retry (seasons : List Season) (results : List EpResult)
    (hS : (seasons.map Season.seasonNumber).Sorted (· < ·))
    (href : ∀ res ∈ results,
      res.ref.seasonNum ∈ seasons.map Season.seasonNumber) :
    (∀ i, i ∈ omniRetryIndices results ↔
      ∃ res, results.get? i = some res ∧
        (∀ r2 ∈ results, r2.ref.seasonNum = res.ref.seasonNum →
          r2.res.notFound = true) ∧
        res.ref.seasonNum ≠ 1) ∧
    (omniRetryIndices results).Nodup ∧
    (∀ i res, results.get? i = some res → i ∈ omniRetryIndices results →
      omniRetryCallFor seasons res ∈ omniRetryCalls seasons results ∧
      omniRetryCallFor seasons res
        = (res.ref.episodeID, 1,
            ((seasons.filter (fun s => s.seasonNumber < res.ref.seasonNum)).map
              (fun s => (s.episodes.length : Int))).sum
              + res.ref.episodeNum)) := by
  refine ⟨fun i => omniRetryIndices_mem_iff results i,
    (List.nodup_range results.length).filter _, ?_⟩
  intro i res hres hmem
  constructor
  · unfold omniRetryCalls
    rw [List.mem_filterMap]
    exact ⟨i, hmem, by rw [hres]; rfl⟩
  · unfold omniRetryCallFor episodeOffset
    rw [episodeOffsetFrom_lookup seasons res.ref.seasonNum 0 hS
      (href res (List.get?_mem hres))]
    simp

/-- Episodes `1..n` of a season, for the concrete omniseason example. -/
def c4Episodes (seasonID : Int) (n : Nat) : List Episode :=
  (List.range n).map (fun i =>
    { episodeID := seasonID * 100 + i
      seasonID := seasonID
      episodeNumber := (i : Int) + 1
      displayName := none
      imageURL := none
      airDate := none
      runtimeMinutes := none
      synopsis := none })

/-- The spec scenario: season 1 with 24 episodes, season 2 with 24 episodes,
season 3 with one episode. -/
def c4Seasons : List Season :=
  [⟨11, 5, 1, c4Episodes 11 24⟩,
   ⟨12, 5, 2, c4Episodes 12 24⟩,
   ⟨13, 5, 3, c4Episodes 13 1⟩]

/-- The (only) requested episode of season 3 — episode 1, id 101 — whose fetch
returned not-found. -/
def c4Res : EpResult :=
  ⟨⟨2, 0, 3, 1, 101⟩, ⟨"", "", "", "", 0, false, true⟩⟩

/-- C4 witness, the spec's own example: seasons of 24 and 24 episodes give
absolute index 49 for season-3 episode 1, and the retry is attempted. -/
theorem c4_omniseason_retry_witness :
    omniRetryCallFor c4Seasons c4Res = (101, 1, 49) ∧
    0 ∈ omniRetryIndices [c4Res] ∧
    omniRetryCallFor c4Seasons c4Res ∈ omniRetryCalls c4Seasons [c4Res] := by
  have h := c4_omniseason_retry c4Seasons [c4Res] (by decide) (by decide)
  have hmem : 0 ∈ omniRetryIndices [c4Res] :=
    (h.1 0).mpr ⟨c4Res, rfl, by decide, by decide⟩
  have h3 := h.2.2 0 c4Res rfl hmem
  refine ⟨?_, hmem, h3.1⟩
  rw [h3.2]
  decide

/-- An existing title's rating columns, scanned as `COALESCE(num_votes, 0),
COALESCE(average_rating, 0)`; `average_rating` is a `real` column, so the
scanned value is always in the image of float32. -/
structure ExistingRating where
  numVotes : Int
  averageRating : Rat
deriving Repr, DecidableEq

/-- One parsed line of the ratings file. -/
structure RatingRecord where
  imdbID : String
  numVotes : Int
  averageRating : Rat
deriving Repr, DecidableEq

/-- The accumulating state of the `syncRatings` scan: the pending batch, the
update statements issued so far, and the counters. -/
structure RatState where
  batch : List RatingRecord
  updatesIssued : List (List RatingRecord)
  scanned : Nat
  unchanged : Nat
deriving Repr, DecidableEq

/-- Appending a changed row to the pending batch, flushing one
`updateRatingsBatch` statement whenever the batch reaches `batchSize`
(`cmd/sync/main.go` lines 1253-1262). -/
def ratAppendFlush (batchSize : Nat) (st : RatState) (r : RatingRecord) :
    RatState :=
  if batchSize ≤ (st.batch ++ [r]).length then
    { st with batch := [], updatesIssued := st.updatesIssued ++ [st.batch ++ [r]] }
  else
    { st with batch := st.batch ++ [r] }

/-- The per-row classification of `syncRatings` (lines 1243-1262) for an
already-parsed row: real numbers are modelled as rationals, and the float64 →
float32 → float64 round-trip `float64(float32(averageRating))` applied to the
source value before comparison is the `f32` parameter. -/
def processRatingRecord (existing : List (String × ExistingRating))
    (batchSize : Nat) (f32 : Rat → Rat) (st : RatState) (imdbID : String)
    (averageRating : Rat) (numVotes : Int) : RatState :=
  match existing.lookup imdbID with
  | some e =>
    if e.numVotes = numVotes ∧ e.averageRating = f32 averageRating then
      { st with scanned := st.scanned + 1, unchanged := st.unchanged + 1 }
    else
      ratAppendFlush batchSize { st with scanned := st.scanned + 1 }
        ⟨imdbID, numVotes, averageRating⟩
  | none =>
    ratAppendFlush batchSize { st with scanned := st.scanned + 1 }
      ⟨imdbID, numVotes, averageRating⟩

/-- C8: a ratings row whose title exists in the store, whose vote count equals
the stored one, and whose average rating equals the stored value after
reduction to stored (float32) precision is classified unchanged: the unchanged
counter increments and the row enters no batch, so zero update statements are
issued for it — even when the source value has more precision than is
stored. -/
theorem c8_unchanged_at_stored_precision
    (existing : List (String × ExistingRating)) (batchSize : Nat)
    (f32 : Rat → Rat) (st : RatState) (imdbID : String) (averageRating : Rat)
    (numVotes : Int) (e : ExistingRating)
    (hex : existing.lookup imdbID = some e)
    (hv : e.numVotes = numVotes)
    (hr : e.averageRating = f32 averageRating) :
    processRatingRecord existing batchSize f32 st imdbID averageRating numVotes
      = { st with scanned := st.scanned + 1, unchanged := st.unchanged + 1 } ∧
    (processRatingRecord existing batchSize f32 st imdbID averageRating
        numVotes).batch = st.batch ∧
    (processRatingRecord existing batchSize f32 st imdbID averageRating
        numVotes).updatesIssued = st.updatesIssued := by
  have h1 : processRatingRecord existing batchSize f32 st imdbID averageRating
      numVotes
      = { st with scanned := st.scanned + 1, unchanged := st.unchanged + 1 } := by
    unfold processRatingRecord
    rw [hex]
    exact if_pos ⟨hv, hr⟩
  exact ⟨h1, by rw [h1], by rw [h1]⟩

/-- C8 witness: stored votes 500 and stored rating 7.2; the source reports
votes 500 and rating 7.25, which reduces to 7.2 at stored precision under the
concrete reduction function — the row is classified unchanged and issues no
update. -/
theorem c8_unchanged_at_stored_precision_witness :
    processRatingRecord [("tt0041951", ⟨500, 36/5⟩)] 5000
        (fun q => q - 1/20) ⟨[], [], 0, 0⟩ "tt0041951" (29/4) 500
      = ⟨[], [], 1, 1⟩ :=
  (c8_unchanged_at_stored_precision [("tt0041951", ⟨500, 36/5⟩)] 5000
    (fun q => q - 1/20) ⟨[], [], 0, 0⟩ "tt0041951" (29/4) 500 ⟨500, 36/5⟩
    rfl rfl (by norm_num)).1
